import Mathlib

set_option maxRecDepth 40000

/-!
Verification development for the multi-strategy retrieval & synthesis
pipeline of the adaptive-rag-workbench backend.

The Python sources are shallowly embedded: pure data manipulation becomes
Lean functions, floating-point relevance scores become rationals (ℚ),
Python strings become Lean strings handled at the character-list level,
fallible external calls (search gateway, completion gateway, JSON parsing,
hashing) become explicit `Except`/`Option`-valued oracle parameters, and
Python dictionaries become structures whose field defaults mirror the
`dict.get(key, default)` calls of the source.  Python `list.sort` /
`sorted` (a stable sort) is embedded as an insertion sort over
index-annotated elements ordered by (key, original index), which is
exactly the specification of a stable sort.
-/

/-! ## Generic helpers for Python string semantics -/

/-- Python `s[:n]`: the first `n` characters of a string. -/
def pyTake (n : Nat) (s : String) : String := String.mk (s.data.take n)

/-- Python `s.startswith(pre)`: character-level prefix test. -/
def pyStartsWith (pre s : String) : Bool := pre.data.isPrefixOf s.data

/-- Python `sub in s`: character-level substring test. -/
def listContainsSub (pat : List Char) : List Char → Bool
  | [] => pat.isEmpty
  | a :: as => pat.isPrefixOf (a :: as) || listContainsSub pat as

/-- Python `sub in s` on strings. -/
def pyContains (sub s : String) : Bool := listContainsSub sub.data s.data

/-- Python `s.split(c)` for a one-character separator. -/
def splitChar (c : Char) : List Char → List (List Char)
  | [] => [[]]
  | x :: xs =>
    if x = c then [] :: splitChar c xs
    else
      match splitChar c xs with
      | h :: t => (x :: h) :: t
      | [] => [[x]]

/-- Python `s.split(c)` on strings, for a one-character separator. -/
def pySplit (c : Char) (s : String) : List String :=
  (splitChar c s.data).map String.mk

/-- One step bound for Python `s.replace(pat, rep)`: fuel-driven scan that
replaces non-overlapping occurrences left to right.  Called with fuel
`s.length`, which bounds the number of scan steps. -/
def replaceFuel (pat rep : List Char) : Nat → List Char → List Char
  | 0, s => s
  | _, [] => []
  | fuel + 1, a :: as =>
    if pat ≠ [] ∧ pat.isPrefixOf (a :: as) then
      rep ++ replaceFuel pat rep fuel ((a :: as).drop pat.length)
    else
      a :: replaceFuel pat rep fuel as

/-- Python `s.replace(pat, rep)` (all non-overlapping occurrences). -/
def pyReplace (pat rep s : String) : String :=
  String.mk (replaceFuel pat.data rep.data s.data.length s.data)

/-- Python `"\n".join(parts)`. -/
def joinLines : List String → String
  | [] => ""
  | [x] => x
  | x :: xs => x ++ "\n" ++ joinLines xs

/-- Python `", ".join(parts)`. -/
def joinComma : List String → String
  | [] => ""
  | [x] => x
  | x :: xs => x ++ ", " ++ joinComma xs

/-- The list of string ordinals `[str(k), str(k+1), ..., str(k+n-1)]`:
the shape of a dense citation-id sequence. -/
def denseIds (k n : Nat) : List String :=
  (List.range n).map (fun i => toString (k + i))

/-- First-occurrence deduplication, helper: keep an element iff it was
not seen before. -/
def dedupFirstAux (seen : List String) : List String → List String
  | [] => []
  | x :: xs =>
    if x ∈ seen then dedupFirstAux seen xs
    else x :: dedupFirstAux (x :: seen) xs

/-- First-occurrence deduplication: the iteration order of a Python dict
or set built by insertion. -/
def dedupFirst (l : List String) : List String := dedupFirstAux [] l

/-- A lexicographic strict order on score pairs, mirroring how Python
compares the tuples produced by a two-component sort key. -/
def rankKeyLt (p q : ℚ × ℚ) : Prop :=
  p.1 < q.1 ∨ (p.1 = q.1 ∧ p.2 < q.2)

instance : DecidableRel rankKeyLt := fun p q => by
  unfold rankKeyLt; infer_instance

/-! ## RetrieverAgent (src/backend/app/agents/retriever.py)

`RetrieverAgent.invoke` performs the hybrid search, filters the raw hits
by the two score thresholds, builds one document record per surviving
hit, and stable-sorts the documents descending by
`(reranker_score or 0, search_score or 0)`.  On a search failure it
returns mock documents instead. -/

namespace RetrieverAgent

/-- A semantic caption attached to a search result; the source handles
caption objects with a `.text` attribute, dict captions, plain strings,
and any other value (rendered with `str`). -/
inductive CaptionVal where
  | withText (text : String)
  | dict (text : Option String)
  | str (s : String)
  | other (rendered : String)
deriving DecidableEq

/-- `highlights` extraction for one caption (retriever.py lines 234-245). -/
def captionText : CaptionVal → String
  | .withText t => t
  | .dict t => t.getD ""
  | .str s => s
  | .other r => r

/-- One raw Azure AI Search result row, with the fields the source reads
via `result.get(...)`; defaults mirror the Python defaults. -/
structure SearchResult where
  search_score : ℚ := 0
  reranker_score : Option ℚ := none
  captions : List CaptionVal := []
  id : String := ""
  content : String := ""
  title : String := ""
  source : String := ""
  document_id : String := ""
  company : String := ""
  filing_date : String := ""
  document_type : String := ""
  section_type : String := ""
  page_number : Option Int := none
  ticker : String := ""
  form_type : String := ""
  chunk_id : String := ""
  chunk_index : Option Int := none
  document_url : String := ""
  credibility_score : ℚ := 0
  citation_info : String := ""
deriving DecidableEq

/-- The citation record built by `RetrieverAgent._build_citation`. -/
structure CitationDict where
  title : String
  source : String
  company : String
  document_type : String
  form_type : String
  filing_date : String
  page_number : Option Int
  section_type : String
  document_url : String
  chunk_id : String
  credibility_score : ℚ
deriving DecidableEq

/-- `RetrieverAgent._build_citation` (retriever.py lines 69-83). -/
def _build_citation (r : SearchResult) : CitationDict :=
  { title := r.title
    source := r.source
    company := r.company
    document_type := r.document_type
    form_type := r.form_type
    filing_date := r.filing_date
    page_number := r.page_number
    section_type := r.section_type
    document_url := r.document_url
    chunk_id := r.chunk_id
    credibility_score := r.credibility_score }

/-- The document record built for each surviving hit
(retriever.py lines 248-275). -/
structure Doc where
  id : String
  content : String
  title : String
  source : String
  document_id : String
  company : String
  filing_date : String
  document_type : String
  section_type : String
  page_number : Option Int
  ticker : String
  form_type : String
  chunk_id : String
  chunk_index : Option Int
  document_url : String
  credibility_score : ℚ
  search_score : ℚ
  reranker_score : Option ℚ
  highlights : List String
  search_query : String
  citation : CitationDict
  citation_info : String
deriving DecidableEq

/-- Document construction for one raw result (retriever.py lines 231-275). -/
def buildDoc (query : String) (r : SearchResult) : Doc :=
  { id := r.id
    content := r.content
    title := r.title
    source := r.source
    document_id := r.document_id
    company := r.company
    filing_date := r.filing_date
    document_type := r.document_type
    section_type := r.section_type
    page_number := r.page_number
    ticker := r.ticker
    form_type := r.form_type
    chunk_id := r.chunk_id
    chunk_index := r.chunk_index
    document_url := r.document_url
    credibility_score := r.credibility_score
    search_score := r.search_score
    reranker_score := r.reranker_score
    highlights := r.captions.map captionText
    search_query := query
    citation := _build_citation r
    citation_info := r.citation_info }

/-- The score-threshold filter (retriever.py lines 224-229): a hit is kept
iff its search score is not below `st` and its reranker score, when
present, is not below `rt`. -/
def passesThresholds (st rt : ℚ) (r : SearchResult) : Bool :=
  !(decide (r.search_score < st)) &&
    (match r.reranker_score with
     | none => true
     | some x => !(decide (x < rt)))

/-- The two-component sort key (retriever.py lines 280-283):
`(reranker_score or 0, search_score or 0)`.  A score of `0` is mapped to
`0` by Python `or`, so `Option.getD 0` is an exact model. -/
def sortKey (d : Doc) : ℚ × ℚ := (d.reranker_score.getD 0, d.search_score)

/-- The total order computed by Python `list.sort(key=..., reverse=True)`
on index-annotated documents: descending by key, ties broken by the
original index (stability). -/
def docSortRel (a b : ℕ × Doc) : Prop :=
  rankKeyLt (sortKey b.2) (sortKey a.2) ∨ (sortKey a.2 = sortKey b.2 ∧ a.1 ≤ b.1)

instance : DecidableRel docSortRel := fun a b => by
  unfold docSortRel; infer_instance

instance : IsTotal (ℕ × Doc) docSortRel where
  total a b := by
    unfold docSortRel rankKeyLt
    rcases lt_trichotomy (sortKey a.2).1 (sortKey b.2).1 with h | h | h
    · exact Or.inr (Or.inl (Or.inl h))
    · rcases lt_trichotomy (sortKey a.2).2 (sortKey b.2).2 with h' | h' | h'
      · exact Or.inr (Or.inl (Or.inr ⟨h, h'⟩))
      · rcases Nat.le_total a.1 b.1 with h1 | h1
        · exact Or.inl (Or.inr ⟨Prod.ext h h', h1⟩)
        · exact Or.inr (Or.inr ⟨Prod.ext h.symm h'.symm, h1⟩)
      · exact Or.inl (Or.inl (Or.inr ⟨h.symm, h'⟩))
    · exact Or.inl (Or.inl (Or.inl h))

instance : IsTrans (ℕ × Doc) docSortRel where
  trans a b c hab hbc := by
    have hkt : ∀ {p q r : ℚ × ℚ}, rankKeyLt p q → rankKeyLt q r → rankKeyLt p r := by
      intro p q r h1 h2
      rcases h1 with h1 | ⟨h1, h1'⟩ <;> rcases h2 with h2 | ⟨h2, h2'⟩
      · exact Or.inl (h1.trans h2)
      · exact Or.inl (h2 ▸ h1)
      · exact Or.inl (h1 ▸ h2)
      · exact Or.inr ⟨h1.trans h2, h1'.trans h2'⟩
    rcases hab with h1 | ⟨h1, h1'⟩ <;> rcases hbc with h2 | ⟨h2, h2'⟩
    · exact Or.inl (hkt h2 h1)
    · exact Or.inl (h2 ▸ h1)
    · exact Or.inl (by rw [h1]; exact h2)
    · exact Or.inr ⟨h1.trans h2, h1'.trans h2'⟩

/-- The index-annotated stable sort of the filtered documents; mapping
`Prod.snd` over it gives the final document order. -/
def rankedPairs (query : String) (st rt : ℚ) (results : List SearchResult) :
    List (ℕ × Doc) :=
  (((results.filter (passesThresholds st rt)).map (buildDoc query)).enum).insertionSort
    docSortRel

/-- Result processing of `RetrieverAgent.invoke` (retriever.py
lines 217-287): filter by thresholds, build documents, stable-sort
descending by `(reranker_score or 0, search_score or 0)`. -/
def processResults (query : String) (st rt : ℚ) (results : List SearchResult) :
    List Doc :=
  (rankedPairs query st rt results).map Prod.snd

/-- Default score threshold (retriever.py line 41). -/
def score_threshold : ℚ := 0.01

/-- Default reranker threshold (retriever.py line 42). -/
def reranker_threshold : ℚ := 1.0

/-- An explicit filter value: the source distinguishes strings (quoted in
the OData expression) from other literals (emitted unquoted). -/
inductive FilterValue where
  | str (s : String)
  | num (n : Int)
deriving DecidableEq

/-- One `key eq value` OData clause (retriever.py lines 202-206). -/
def filterExpr (kv : String × FilterValue) : String :=
  match kv.2 with
  | .str v => kv.1 ++ " eq \u0027" ++ v ++ "\u0027"
  | .num n => kv.1 ++ " eq " ++ toString n

/-- A vector query attached to the search request. -/
structure VectorizedQueryModel where
  vector : List ℚ
  k_nearest_neighbors : Nat
  fields : String
deriving DecidableEq

/-- The search request assembled by `invoke` (retriever.py lines 170-212):
vector queries are attached only when embedding generation succeeded. -/
structure SearchParams where
  search_text : String
  top : Nat
  query_type_semantic : Bool := true
  semantic_configuration_name : String := "default-semantic-config"
  vector_queries : List VectorizedQueryModel := []
  filter : Option String := none
deriving DecidableEq

/-- Search-parameter assembly (retriever.py lines 170-212).  `queryVector`
is the outcome of `_generate_query_embedding`, which catches every
embedding failure and returns `None`. -/
def buildSearchParams (query : String) (queryVector : Option (List ℚ))
    (filters : List (String × FilterValue)) (topK : Nat) : SearchParams :=
  { search_text := query
    top := topK
    vector_queries :=
      match queryVector with
      | some v => [{ vector := v, k_nearest_neighbors := topK, fields := "content_vector" }]
      | none => []
    filter :=
      if filters.isEmpty then none
      else some (String.intercalate " and " (filters.map filterExpr)) }

/-- One mock document (retriever.py lines 300-360).  `md5hex` is the
external `hashlib.md5(...).hexdigest()` call. -/
def mockDoc (md5hex : String → String) (query : String) (i : ℕ) (company : String)
    (j : ℕ) (year : String) : Doc :=
  let doc_id := pyTake 8 (md5hex (company ++ "_" ++ year ++ "_" ++ query))
  let content :=
    if pyContains "risk" query.toLower then
      "Risk Factors for " ++ company ++ " (" ++ year ++ "):\n                    \nOur business faces various risks including market volatility, regulatory changes, competitive pressures, and operational challenges. Economic uncertainty may impact consumer demand and business operations. Cybersecurity threats pose ongoing risks to our data and systems. Supply chain disruptions could affect product availability and costs. Changes in technology trends may require significant investments to remain competitive."
    else if pyContains "revenue" query.toLower || pyContains "r&d" query.toLower then
      "Financial Performance - " ++ company ++ " (" ++ year ++ "):\n                    \nResearch and development expenses increased to support innovation initiatives. Revenue growth was driven by strong performance in key product segments. Investment in artificial intelligence and cloud technologies represents a strategic priority. Operating margins improved through operational efficiency initiatives. Geographic expansion contributed to revenue diversification."
    else
      "Business Overview - " ++ company ++ " (" ++ year ++ "):\n                    \n" ++ company ++ " continues to focus on innovation and market expansion. Key strategic initiatives include technology development, market penetration, and operational excellence. The company maintains strong financial performance while investing in future growth opportunities. Regulatory compliance and risk management remain priorities."
  { id := doc_id
    content := content
    title := company ++ " Annual Report " ++ year
    source := company ++ "_" ++ year ++ "_10-K"
    document_id := "doc_" ++ doc_id
    company := company
    filing_date := year ++ "-03-15"
    document_type := "10-K"
    section_type := "Business Overview"
    page_number := some (Int.ofNat (i + 1))
    ticker := (pyTake 4 company).toUpper
    form_type := "10-K"
    chunk_id := "chunk_" ++ doc_id
    chunk_index := some (Int.ofNat j)
    document_url := "https://sec.gov/documents/" ++ company ++ "_" ++ year ++ "_10K.pdf"
    credibility_score := 0.85 + i * 0.02
    search_score := 0.9 - i * 0.1 - j * 0.05
    reranker_score := some (0.85 - i * 0.08 - j * 0.04)
    highlights := ["Key information about " ++ company ++ " operations and " ++ query]
    search_query := query
    citation :=
      { title := company ++ " Annual Report " ++ year
        source := company ++ "_" ++ year ++ "_10-K"
        company := company
        document_type := "10-K"
        form_type := "10-K"
        filing_date := year ++ "-03-15"
        page_number := some (Int.ofNat (i + 1))
        section_type := "Business Overview"
        document_url := "https://sec.gov/documents/" ++ company ++ "_" ++ year ++ "_10K.pdf"
        chunk_id := "chunk_" ++ doc_id
        credibility_score := 0.85 + i * 0.02 }
    citation_info := company ++ " " ++ year ++ " Annual Report, Section: Business Overview" }

/-- The stable descending sort by `search_score` used for mock documents
(retriever.py line 362), embedded like the main sort. -/
def mockSortRel (a b : ℕ × Doc) : Prop :=
  b.2.search_score < a.2.search_score ∨
    (a.2.search_score = b.2.search_score ∧ a.1 ≤ b.1)

instance : DecidableRel mockSortRel := fun a b => by
  unfold mockSortRel; infer_instance

/-- `RetrieverAgent._generate_mock_documents` (retriever.py
lines 294-362): six mock documents (first 3 companies × first 2 years),
sorted descending by search score. -/
def _generate_mock_documents (md5hex : String → String) (query : String) :
    List Doc :=
  let companies := ["Apple", "Microsoft", "Google", "Meta", "JPMC", "Amazon"]
  let years := ["2024", "2023", "2022", "2021"]
  let docs :=
    ((companies.take 3).enum).flatMap fun ic =>
      ((years.take 2).enum).map fun jy =>
        mockDoc md5hex query ic.1 ic.2 jy.1 jy.2
  ((docs.enum).insertionSort mockSortRel).map Prod.snd

/-- `RetrieverAgent.invoke` after search-parameter assembly
(retriever.py lines 214-292): on a successful search the raw results are
filtered, converted and sorted; any raised search error is caught and
answered with mock documents. -/
def invoke (query : String) (md5hex : String → String) (st rt : ℚ)
    (searchOutcome : Except String (List SearchResult)) : List Doc :=
  match searchOutcome with
  | .ok results => processResults query st rt results
  | .error _ => _generate_mock_documents md5hex query

end RetrieverAgent

/-! ## Concrete hits for the seven-hit scenario of C1 -/

/-- Seven-hit scenario: hit passing both thresholds (st = 1, rt = 2). -/
def hitA : RetrieverAgent.SearchResult :=
  { id := "h1", search_score := 5, reranker_score := some 3 }

/-- Seven-hit scenario: hit failing the lexical threshold. -/
def hitB : RetrieverAgent.SearchResult :=
  { id := "h2", search_score := 0, reranker_score := some 9 }

/-- Seven-hit scenario: hit failing the rerank threshold. -/
def hitC : RetrieverAgent.SearchResult :=
  { id := "h3", search_score := 3, reranker_score := some 1 }

/-- Seven-hit scenario: hit with no rerank score passing the lexical
threshold. -/
def hitD : RetrieverAgent.SearchResult :=
  { id := "h4", search_score := 2, reranker_score := none }

/-- Seven-hit scenario: hit failing the rerank threshold despite a high
lexical score. -/
def hitE : RetrieverAgent.SearchResult :=
  { id := "h5", search_score := 9, reranker_score := some 1 }

/-- Seven-hit scenario: hit passing both thresholds with the highest
rerank score. -/
def hitF : RetrieverAgent.SearchResult :=
  { id := "h6", search_score := 4, reranker_score := some 7 }

/-- Seven-hit scenario: hit with no rerank score failing the lexical
threshold. -/
def hitG : RetrieverAgent.SearchResult :=
  { id := "h7", search_score := 0, reranker_score := none }

/-- The seven-hit list of the scenario; exactly `hitA`, `hitD` and `hitF`
pass both thresholds. -/
def sevenHits : List RetrieverAgent.SearchResult :=
  [hitA, hitB, hitC, hitD, hitE, hitF, hitG]

/-! ## Shared data shapes for the synthesis layers -/

/-- A conversation history message, as read with
`msg.get("role", "user")` / `msg.get("content", "")`. -/
structure HistMsg where
  role : String := "user"
  content : String := ""
deriving DecidableEq

/-- The outcome of one successful completion-gateway call:
`{text, prompt_tokens, completion_tokens, total_tokens}`. -/
structure LlmUsage where
  text : String
  prompt_tokens : Nat := 0
  completion_tokens : Nat := 0
  total_tokens : Nat := 0
deriving DecidableEq

/-- The `{answer, prompt_tokens, completion_tokens, total_tokens}` dict
returned by the synthesis helpers. -/
structure LlmAnswer where
  answer : String
  prompt_tokens : Nat
  completion_tokens : Nat
  total_tokens : Nat
deriving DecidableEq

/-- The `token_usage` dict of a result.  `prompt_tokens` and
`completion_tokens` are optional because some error paths emit a dict
holding only `total_tokens` (plus an `error` marker). -/
structure TokenUsageDict where
  prompt_tokens : Option Nat := none
  completion_tokens : Option Nat := none
  total_tokens : Nat := 0
  error : Option String := none
deriving DecidableEq

/-- Python `role.title()` for the single-word roles used here: first
character upper-cased, rest lower-cased. -/
def pyTitleWord (s : String) : String :=
  match s.data with
  | [] => ""
  | c :: cs => String.mk (c.toUpper :: cs.map Char.toLower)

/-! ## chat.py (src/backend/app/api/chat.py)

`process_fast_rag` is the fast-RAG strategy entry point and
`_generate_llm_synthesized_answer` its completion-gateway helper.  The
body of `process_fast_rag` reads the name `conversation_context` (line
325) which is not defined at module scope in chat.py, so every call
raises `NameError`, which the function's own `except` clause turns into
an error result. -/

namespace ChatApi

/-- A citation built by `process_fast_rag` (chat.py lines 397-415). -/
structure FastCitation where
  id : String
  title : String
  content : String
  source : String
  company : String
  document_type : String
  filing_date : String
  page_number : Option Int
  section_type : String
  document_url : String
  search_score : ℚ
  reranker_score : Option ℚ
  credibility_score : ℚ
  form_type : String
  ticker : String
  chunk_id : String
  citation_info : String
deriving DecidableEq

/-- The `relevant_text` computed for one document (chat.py lines
388-393): the first highlight truncated to 300 characters if any
highlight exists, otherwise the content truncated to 300 characters.  No
ellipsis marker is appended on this path. -/
def fastExcerpt (d : RetrieverAgent.Doc) : String :=
  match d.highlights with
  | h :: _ => pyTake 300 h
  | [] => pyTake 300 d.content

/-- One full citation record for a document (chat.py lines 397-415).
`doc.get("title", ...)` always finds the `title` key on documents built
by the retriever, so the default is never taken. -/
def mkFastCitation (citationId : Nat) (d : RetrieverAgent.Doc)
    (relevant_text : String) : FastCitation :=
  { id := toString citationId
    title := d.title
    content := relevant_text
    source := d.source
    company := d.company
    document_type := d.document_type
    filing_date := d.filing_date
    page_number := d.page_number
    section_type := d.section_type
    document_url := d.document_url
    search_score := d.search_score
    reranker_score := d.reranker_score
    credibility_score := d.credibility_score
    form_type := d.form_type
    ticker := d.ticker
    chunk_id := d.chunk_id
    citation_info := d.citation_info }

/-- The citation loop of `process_fast_rag` (chat.py lines 381-417):
`citation_id` starts at 1 and is incremented only when a citation is
appended; documents whose `relevant_text` is empty are skipped. -/
def fastRagCitationsAux : List RetrieverAgent.Doc → Nat → List FastCitation
  | [], _ => []
  | d :: ds, citationId =>
    let relevant_text := fastExcerpt d
    if relevant_text ≠ "" then
      mkFastCitation citationId d relevant_text :: fastRagCitationsAux ds (citationId + 1)
    else
      fastRagCitationsAux ds citationId

/-- Citation construction over the ranked documents (chat.py lines
381-417). -/
def fastRagCitations (docs : List RetrieverAgent.Doc) : List FastCitation :=
  fastRagCitationsAux docs 1

/-- The fixed system prompt of the fast LLM synthesis (chat.py lines
247-258). -/
def fastSystemPrompt : String :=
  "You are a senior financial analyst with expertise in analyzing SEC filings and financial documents. \nYour task is to provide comprehensive, analytical responses based on the provided document excerpts. \n\nGuidelines:\n- Provide detailed, analytical insights based on the document content\n- Structure your response with clear sections and headings\n- Use specific data points and quotes from the documents\n- Reference document sources appropriately  \n- Focus on factual information and avoid speculation\n- Use professional financial analysis language\n- If documents contain conflicting information, acknowledge and explain the differences\n- Always cite which documents support your statements"

/-- Per-document prompt context (chat.py lines 217-234): up to 5
documents, content capped at 1500 characters. -/
def fastDocContext (i : Nat) (d : RetrieverAgent.Doc) : String :=
  "**Document " ++ toString (i + 1) ++ ": " ++ d.title ++ "**\n" ++
    (if d.company ≠ "Unknown Company" then "Company: " ++ d.company ++ "\n" else "") ++
    (if d.document_type ≠ "" then "Document Type: " ++ d.document_type ++ "\n" else "") ++
    (if d.filing_date ≠ "" then "Filing Date: " ++ d.filing_date ++ "\n" else "") ++
    "Content: " ++ pyTake 1500 d.content ++ "...\n\n"

/-- Conversation-context block (chat.py lines 237-244): last 3 messages,
each content capped at 200 characters. -/
def fastConversationBlock (history : List HistMsg) : String :=
  if history.isEmpty then ""
  else
    "Previous conversation context:\n" ++
      String.join ((historyTail history).map
        (fun m => pyTitleWord m.role ++ ": " ++ pyTake 200 m.content ++ "...\n")) ++
      "\n"
where
  historyTail (history : List HistMsg) : List HistMsg :=
    history.drop (history.length - 3)

/-- The user prompt of the fast LLM synthesis (chat.py lines 260-266). -/
def fastUserPrompt (question : String) (docs : List RetrieverAgent.Doc)
    (history : List HistMsg) : String :=
  fastConversationBlock history ++ "Question: " ++ question ++
    "\n\nBased on the following financial document excerpts, provide a comprehensive analytical response:\n\n" ++
    joinLines (((docs.take 5).enum).map (fun idoc => fastDocContext idoc.1 idoc.2)) ++
    "\n\nPlease provide a detailed analysis that addresses the question using the information from these documents. Structure your response clearly and cite specific information from the documents."

/-- `_generate_llm_synthesized_answer` (chat.py lines 191-302).
`complete` is the completion gateway (`None` models a raised
`CompletionError`); the fallback concatenates up to 3 excerpts and
reports zero tokens. -/
def _generate_llm_synthesized_answer (question : String)
    (docs : List RetrieverAgent.Doc) (history : List HistMsg)
    (complete : String → String → Option LlmUsage) : LlmAnswer :=
  match complete fastSystemPrompt (fastUserPrompt question docs history) with
  | some u =>
    { answer := u.text
      prompt_tokens := u.prompt_tokens
      completion_tokens := u.completion_tokens
      total_tokens := u.total_tokens }
  | none =>
    { answer :=
        "Based on the retrieved documents: " ++
          String.intercalate " " ((docs.take 3).map (fun d => pyTake 200 d.content)) ++
          "..."
      prompt_tokens := 0
      completion_tokens := 0
      total_tokens := 0 }

/-- The result dict of `process_fast_rag`.  Python `round(x, 3)` on the
average relevance score is kept as the exact rational average; rounding
is presentational and not load-bearing for any claim. -/
structure FastRagResult where
  answer : String
  citations : List FastCitation
  query_rewrites : List String
  token_usage : TokenUsageDict
  processing_time_ms : Nat
  retrieval_method : String
  documents_retrieved : Nat
  average_relevance_score : Option ℚ := none
  semantic_ranking_used : Option Bool := none
  llm_synthesis_used : Option Bool := none
  error_details : Option String := none
  success : Bool
deriving DecidableEq

/-- Every name defined at module scope in chat.py: its imports (lines
1-23) and its module-level classes, routes, instances and functions. -/
def chatModuleGlobals : List String :=
  ["APIRouter", "HTTPException", "Depends", "StreamingResponse", "BaseModel",
   "Dict", "Any", "List", "Optional", "json", "asyncio", "uuid", "time",
   "traceback", "logging", "datetime", "OrchestratorAgent", "RetrieverAgent",
   "WriterAgent", "VerifierAgent", "CuratorAgent", "initialize_kernel",
   "get_agent_registry", "get_current_user", "agentic_rag_service",
   "azure_ai_agents_service", "mcp_rag_service", "token_tracker",
   "get_azure_service_manager", "router", "ChatRequest", "kernel",
   "orchestrator", "retriever", "writer", "verifier", "curator",
   "chat_stream", "handle_rag_modes", "handle_legacy_modes",
   "_generate_llm_synthesized_answer", "process_fast_rag",
   "process_mcp_rag", "process_deep_research_rag", "get_session_history",
   "clear_session_history", "list_user_sessions", "FollowUpRequest",
   "generate_follow_up_questions", "RetrievalTestRequest", "test_retrieval"]

/-- Python global-name resolution inside `process_fast_rag`: a read of a
name that is neither local nor module-global raises `NameError`. -/
def lookupChatGlobal (n : String) : Except String Unit :=
  if n ∈ chatModuleGlobals then .ok ()
  else .error ("name \u0027" ++ n ++ "\u0027 is not defined")

/-- The part of `process_fast_rag` from retrieval onwards (chat.py lines
352-439), parameterized by the enhanced prompt the context-enhancement
block would have produced. -/
def process_fast_rag_body (prompt enhanced_prompt : String)
    (md5hex : String → String)
    (searchOutcome : Except String (List RetrieverAgent.SearchResult))
    (complete : String → String → Option LlmUsage) (timeMs : Nat) :
    FastRagResult :=
  let docs := RetrieverAgent.invoke enhanced_prompt md5hex
    RetrieverAgent.score_threshold RetrieverAgent.reranker_threshold searchOutcome
  if docs.isEmpty then
    { answer := "No relevant documents found in the knowledge base for your query. Please try rephrasing your question or use more specific terms."
      citations := []
      query_rewrites := [prompt]
      token_usage :=
        { prompt_tokens := some 0, completion_tokens := some 0, total_tokens := 0 }
      processing_time_ms := timeMs
      retrieval_method := "hybrid_vector_search"
      documents_retrieved := 0
      success := true }
  else
    let llm := _generate_llm_synthesized_answer prompt docs [] complete
    { answer := llm.answer ++
        "\n\n---\n*This response uses hybrid vector search with LLM synthesis for enhanced analysis and relevance.*"
      citations := fastRagCitations docs
      query_rewrites := [prompt]
      token_usage :=
        { prompt_tokens := some llm.prompt_tokens
          completion_tokens := some llm.completion_tokens
          total_tokens := llm.total_tokens }
      processing_time_ms := timeMs
      retrieval_method := "hybrid_vector_search"
      documents_retrieved := docs.length
      average_relevance_score :=
        some ((docs.map (·.search_score)).sum / docs.length)
      semantic_ranking_used :=
        some (docs.any (fun d =>
          match d.reranker_score with
          | some x => decide (x ≠ 0)
          | none => false))
      llm_synthesis_used := some true
      success := true }

/-- `process_fast_rag` (chat.py lines 304-452).  Its first statement
chain (line 325) reads the undefined module-global
`conversation_context`; the resulting `NameError` is caught by the
`except` clause (line 441), so the error result is returned on every
call and the retrieval path below it is unreachable.  `error_details`
carries `traceback.format_exc()`, summarized here as the exception
message. -/
def process_fast_rag (prompt : String) (md5hex : String → String)
    (searchOutcome : Except String (List RetrieverAgent.SearchResult))
    (complete : String → String → Option LlmUsage) (timeMs : Nat) :
    FastRagResult :=
  match lookupChatGlobal "conversation_context" with
  | .error e =>
    { answer := "Error in Fast RAG processing: " ++ e
      citations := []
      query_rewrites := []
      token_usage := { total_tokens := 0, error := some e }
      processing_time_ms := 0
      retrieval_method := "hybrid_vector_search"
      documents_retrieved := 0
      error_details := some ("NameError: " ++ e)
      success := false }
  | .ok _ => process_fast_rag_body prompt prompt md5hex searchOutcome complete timeMs

end ChatApi

/-! ## MCPRAGService (src/backend/app/services/mcp_rag_service.py)

`MCPRAGService.process_question` mirrors the fast path but retrieves via
the MCP HTTP server; its search wrapper returns `[]` on any HTTP or
transport error, so the empty-hit branch is reachable from gateway
failures on this path. -/

namespace MCPRAGService

/-- A document returned by the MCP search wrapper; optional fields model
dict keys that may be absent (`dict.get` with distinct defaults at
distinct call sites). -/
structure McpDoc where
  title : Option String := none
  content : String := ""
  source : Option String := none
  company : Option String := none
  document_type : String := ""
  filing_date : String := ""
  page_number : Option Int := none
  section_type : String := ""
  document_url : String := ""
  search_score : ℚ := 0
  form_type : String := ""
  ticker : String := ""
  chunk_id : String := ""
  citation_info : String := ""
deriving DecidableEq

/-- A citation built by `MCPRAGService.process_question`
(mcp_rag_service.py lines 341-358). -/
structure McpCitation where
  id : String
  title : String
  content : String
  source : String
  company : String
  document_type : String
  filing_date : String
  page_number : Option Int
  section_type : String
  document_url : String
  search_score : ℚ
  form_type : String
  ticker : String
  chunk_id : String
  citation_info : String
  retrieval_method : String
deriving DecidableEq

/-- The content preview (mcp_rag_service.py line 338): truncate to 300
characters and append an ellipsis marker only when the content exceeds
300 characters. -/
def mcpPreview (content : String) : String :=
  if 300 < content.length then pyTake 300 content ++ "..." else content

/-- The citation loop of `process_question` (mcp_rag_service.py lines
331-360): `citation_id` starts at 1, increments only on append, and
documents with empty content are skipped. -/
def citationsAux (search_type : String) : List McpDoc → Nat → List McpCitation
  | [], _ => []
  | d :: ds, citationId =>
    if d.content ≠ "" then
      { id := toString citationId
        title := d.title.getD ("Document " ++ toString citationId)
        content := mcpPreview d.content
        source := d.source.getD "MCP Search"
        company := d.company.getD ""
        document_type := d.document_type
        filing_date := d.filing_date
        page_number := d.page_number
        section_type := d.section_type
        document_url := d.document_url
        search_score := d.search_score
        form_type := d.form_type
        ticker := d.ticker
        chunk_id := d.chunk_id
        citation_info := d.citation_info
        retrieval_method := "mcp_" ++ search_type ++ "_search" } ::
        citationsAux search_type ds (citationId + 1)
    else
      citationsAux search_type ds citationId

/-- Citation construction over the retrieved documents
(mcp_rag_service.py lines 331-360). -/
def mcpCitations (search_type : String) (docs : List McpDoc) : List McpCitation :=
  citationsAux search_type docs 1

/-- Per-document prompt context (mcp_rag_service.py lines 443-460);
company defaults to "Unknown Company" at this call site. -/
def mcpDocContext (i : Nat) (d : McpDoc) : String :=
  let company := d.company.getD "Unknown Company"
  "**Document " ++ toString (i + 1) ++ ": " ++
    d.title.getD ("Document " ++ toString (i + 1)) ++ "**\n" ++
    (if company ≠ "Unknown Company" then "Company: " ++ company ++ "\n" else "") ++
    (if d.document_type ≠ "" then "Document Type: " ++ d.document_type ++ "\n" else "") ++
    (if d.filing_date ≠ "" then "Filing Date: " ++ d.filing_date ++ "\n" else "") ++
    "Content: " ++ pyTake 1500 d.content ++ "...\n\n"

/-- Conversation-context block (mcp_rag_service.py lines 463-470). -/
def mcpConversationBlock (history : List HistMsg) : String :=
  if history.isEmpty then ""
  else
    "Previous conversation context:\n" ++
      String.join ((history.drop (history.length - 3)).map
        (fun m => pyTitleWord m.role ++ ": " ++ pyTake 200 m.content ++ "...\n")) ++
      "\n"

/-- The user prompt of `_generate_llm_answer` (mcp_rag_service.py lines
486-492). -/
def mcpUserPrompt (question : String) (docs : List McpDoc)
    (history : List HistMsg) : String :=
  mcpConversationBlock history ++ "Question: " ++ question ++
    "\n\nBased on the following financial document excerpts, provide a comprehensive analytical response:\n\n" ++
    joinLines (((docs.take 5).enum).map (fun idoc => mcpDocContext idoc.1 idoc.2)) ++
    "\n\nPlease provide a detailed analysis that addresses the question using the information from these documents. Structure your response clearly and cite specific information from the documents."

/-- `_generate_fallback_answer` (mcp_rag_service.py lines 528-585):
deterministic structured answer grouping the documents by company, with
zero token usage.  The bullet character reproduces the mojibake present
in the source file. -/
def _generate_fallback_answer (docs : List McpDoc) : LlmAnswer :=
  let keys := dedupFirst (docs.map (fun d => d.company.getD "Unknown"))
  let groupLines := keys.flatMap (fun k =>
    (if k ≠ "Unknown" then ["**" ++ k ++ ":**"] else []) ++
      ((docs.filter (fun d => d.company.getD "Unknown" == k)).flatMap (fun d =>
        if d.content ≠ "" then ["â€¢ " ++ mcpPreview d.content] else [])) ++
      [""])
  { answer := joinLines
      (["Based on analysis of " ++ toString docs.length ++ " relevant documents via MCP search:", ""] ++
        groupLines ++
        ["---", "*Note: This response uses structured document excerpts due to LLM synthesis unavailability.*"])
    prompt_tokens := 0
    completion_tokens := 0
    total_tokens := 0 }

/-- The fixed system prompt of `_generate_llm_answer`
(mcp_rag_service.py lines 473-484); identical to the fast-path prompt. -/
def mcpSystemPrompt : String := ChatApi.fastSystemPrompt

/-- `_generate_llm_answer` (mcp_rag_service.py lines 417-526): one
completion-gateway call with a methodology note appended; any failure
falls back to the deterministic structured answer. -/
def _generate_llm_answer (question : String) (docs : List McpDoc)
    (history : List HistMsg) (complete : String → String → Option LlmUsage) :
    LlmAnswer :=
  match complete mcpSystemPrompt (mcpUserPrompt question docs history) with
  | some u =>
    { answer := u.text ++
        "\n\n---\n*This response was generated using MCP (Model Context Protocol) search with LLM synthesis, analyzing " ++
        toString docs.length ++ " relevant documents.*"
      prompt_tokens := u.prompt_tokens
      completion_tokens := u.completion_tokens
      total_tokens := u.total_tokens }
  | none => _generate_fallback_answer docs

/-- The result dict of `process_question`; the rounded average relevance
score is kept exact, as in the fast path. -/
structure McpResult where
  answer : String
  citations : List McpCitation
  query_rewrites : List String
  token_usage : TokenUsageDict
  processing_time_ms : Nat
  retrieval_method : String
  documents_retrieved : Nat
  average_relevance_score : Option ℚ := none
  mcp_server_used : Option Bool := none
  llm_synthesis_used : Option Bool := none
  error_details : Option String := none
  success : Bool
deriving DecidableEq

/-- `MCPRAGService.process_question` (mcp_rag_service.py lines 279-415).
`initOutcome` models `ensure_initialized`, whose failure is the only
raise reaching the outer `except`; `docs` is the output of
`search_documents`, which itself returns `[]` on any search-gateway
failure. -/
def process_question (question : String) (initOutcome : Except String Unit)
    (docs : List McpDoc) (history : List HistMsg)
    (complete : String → String → Option LlmUsage) (search_type : String)
    (timeMs : Nat) : McpResult :=
  match initOutcome with
  | .error e =>
    { answer := "Error in MCP RAG processing: " ++ e
      citations := []
      query_rewrites := []
      token_usage := { total_tokens := 0, error := some e }
      processing_time_ms := timeMs
      retrieval_method := "mcp_" ++ search_type ++ "_search"
      documents_retrieved := 0
      error_details := some e
      success := false }
  | .ok _ =>
    if docs.isEmpty then
      { answer := "No relevant documents found in the knowledge base for your query. Please try rephrasing your question or use more specific terms."
        citations := []
        query_rewrites := [question]
        token_usage :=
          { prompt_tokens := some 0, completion_tokens := some 0, total_tokens := 0 }
        processing_time_ms := timeMs
        retrieval_method := "mcp_" ++ search_type ++ "_search"
        documents_retrieved := 0
        success := true }
    else
      let llm := _generate_llm_answer question docs history complete
      { answer := llm.answer
        citations := mcpCitations search_type docs
        query_rewrites := [question]
        token_usage :=
          { prompt_tokens := some llm.prompt_tokens
            completion_tokens := some llm.completion_tokens
            total_tokens := llm.prompt_tokens + llm.completion_tokens }
        processing_time_ms := timeMs
        retrieval_method := "mcp_" ++ search_type ++ "_search"
        documents_retrieved := docs.length
        average_relevance_score :=
          some ((docs.map (·.search_score)).sum / docs.length)
        mcp_server_used := some true
        llm_synthesis_used := some true
        success := true }

end MCPRAGService

/-! ## AgenticVectorRAGService
(src/backend/app/services/agentic_vector_rag_service.py)

The agentic strategy drives one opaque planning call and post-processes
its structured response: answer extraction with JSON-vs-prose sniffing
and synthesis fallback, reference-to-citation mapping, and token-usage
extraction.  `process_question` deliberately re-raises every failure of
the planning call instead of falling back to hybrid search. -/

namespace AgenticVectorRAGService

/-- A Python dict as it appears in grounding data and `source_data`:
string fields default to `""` (the `dict.get` default at the reading
sites), `title` stays optional because one call site uses a positional
default, and `truthy` records Python truthiness of the dict (false for
an empty dict). -/
structure GDict where
  truthy : Bool := true
  title : Option String := none
  content : String := ""
  company : String := ""
  document_type : String := ""
  filing_date : String := ""
  form_type : String := ""
  ticker : String := ""
  source : String := ""
  page_number : Option Int := none
  section_type : String := ""
  chunk_id : String := ""
  document_url : String := ""
deriving DecidableEq

/-- A parsed JSON value as used for grounding data: either a dict or a
non-dict value (only its Python truthiness is ever observed). -/
inductive GItem where
  | obj (d : GDict)
  | nonObj (truthy : Bool)
deriving DecidableEq

/-- Python truthiness of a grounding item. -/
def gitemTruthy : GItem → Bool
  | .obj d => d.truthy
  | .nonObj t => t

/-- A reference's `source_data` payload: inline dict or JSON string. -/
inductive SourceData where
  | dict (d : GDict)
  | str (s : String)
deriving DecidableEq

/-- Python truthiness of a `source_data` payload. -/
def sourceDataTruthy : SourceData → Bool
  | .dict d => d.truthy
  | .str s => decide (s ≠ "")

/-- One planning-response reference.  Attribute access on the opaque
reference object is modeled with optional fields (`none` = attribute
absent); `raises` models an exception thrown while this reference is
processed, which the per-reference `except` clause catches.  The
capitalized `DocKey` spelling is kept as `doc_key_alt`; the capitalized
`SourceData` spelling is collapsed into `source_data`, since the source
reads whichever of the two is present and truthy. -/
structure Reference where
  doc_key : String := ""
  doc_key_alt : String := ""
  activity_source : Option Int := none
  className : String := "Unknown"
  source_data : Option SourceData := none
  attr_score : Option ℚ := none
  attr_reranker_score : Option ℚ := none
  attr_title : Option String := none
  attr_content : Option String := none
  attr_url : Option String := none
  attr_chunk_id : Option String := none
  raises : Option String := none
deriving DecidableEq

/-- One citation produced by `_format_citations_from_references`. -/
structure AgenticCitation where
  id : String
  doc_key : String := ""
  activity_source : Option Int := none
  reference_type : String := "Unknown"
  source_data : Option SourceData := none
  title : String := ""
  content : String := ""
  company : String := ""
  document_type : String := ""
  filing_date : String := ""
  form_type : String := ""
  ticker : String := ""
  source : String := ""
  page_number : Option Int := none
  section_type : String := ""
  chunk_id : String := ""
  document_url : String := ""
  score : Option ℚ := none
  reranker_score : Option ℚ := none
  url : Option String := none
  error : Option String := none
deriving DecidableEq

/-- The metadata recovered by `_lookup_document_metadata`
(agentic_vector_rag_service.py lines 742-781): first index hit for the
chunk id, content capped at 500 characters; empty values are cleaned
out, which is observationally the same as keeping them as `""`. -/
structure LookupMeta where
  title : String := ""
  company : String := ""
  document_type : String := ""
  filing_date : String := ""
  form_type : String := ""
  ticker : String := ""
  source : String := ""
  content : String := ""
deriving DecidableEq

/-- `_lookup_document_metadata`: `search1` is the external index lookup
(first result for `chunk_id eq doc_key`); `none` models both a raised
lookup error and an empty result set. -/
def _lookup_document_metadata (search1 : String → Option GDict)
    (doc_key : String) : Option LookupMeta :=
  match search1 doc_key with
  | some r =>
    some { title := r.title.getD ""
           company := r.company
           document_type := r.document_type
           filing_date := r.filing_date
           form_type := r.form_type
           ticker := r.ticker
           source := r.source
           content := pyTake 500 r.content }
  | none => none

/-- The citation fields accumulated before the fallback steps. -/
structure CitFields where
  title : String := ""
  content : String := ""
  company : String := ""
  document_type : String := ""
  filing_date : String := ""
  form_type : String := ""
  ticker : String := ""
  source : String := ""
  page_number : Option Int := none
  section_type : String := ""
  chunk_id : String := ""
  document_url : String := ""
deriving DecidableEq

/-- Field extraction from a truthy `source_data`
(agentic_vector_rag_service.py lines 654-687): a dict populates all
twelve fields; a JSON string is parsed (`parseRef` is `json.loads`) and,
when it parses to a dict, populates five fields; a parse failure stores
the first 500 characters as content. -/
def fieldsFromSourceData (parseRef : String → Option GItem) :
    SourceData → CitFields
  | .dict d =>
    { title := d.title.getD ""
      content := d.content
      company := d.company
      document_type := d.document_type
      filing_date := d.filing_date
      form_type := d.form_type
      ticker := d.ticker
      source := d.source
      page_number := d.page_number
      section_type := d.section_type
      chunk_id := d.chunk_id
      document_url := d.document_url }
  | .str s =>
    match parseRef s with
    | some (.obj d) =>
      { title := d.title.getD ""
        content := d.content
        company := d.company
        document_type := d.document_type
        source := d.source }
    | some (.nonObj _) => {}
    | none => { content := pyTake 500 s }

/-- Metadata recovery when no source data is present
(agentic_vector_rag_service.py lines 688-698): the cleaned lookup result
updates the still-empty citation fields. -/
def fieldsFromLookup (search1 : String → Option GDict) (dk : String) :
    CitFields :=
  match _lookup_document_metadata search1 dk with
  | some m =>
    { title := m.title
      content := m.content
      company := m.company
      document_type := m.document_type
      filing_date := m.filing_date
      form_type := m.form_type
      ticker := m.ticker
      source := m.source }
  | none => {}

/-- Title derivation from an accession-style document key
(agentic_vector_rag_service.py lines 708-721). -/
def derivedTitle (i : Nat) (dk : String) : String :=
  if dk ≠ "" then
    let parts := pySplit '_' dk
    if 2 ≤ parts.length then
      "SEC Filing " ++ parts.headD "" ++ " - Section " ++
        pyReplace ("chunk_") ("") (parts.getD 1 "")
    else "Document " ++ dk
  else "Document " ++ toString (i + 1)

/-- The title fallback (agentic_vector_rag_service.py lines 707-721):
derive a title only when none was recovered. -/
def titleFallback (i : Nat) (dk : String) (t : String) : String :=
  if t = "" then derivedTitle i dk else t

/-- The content fallback (agentic_vector_rag_service.py lines 723-724). -/
def contentFallback (c : String) : String :=
  if c = "" then "Content available in financial document" else c

/-- One citation for one reference (`_format_citations_from_references`
loop body, agentic_vector_rag_service.py lines 638-738).  The stages
mirror the source: doc-key resolution, source-data extraction or index
lookup, direct-attribute override (only onto still-empty fields), then
the title and content fallbacks.  A raised per-reference exception is
caught and answered with a basic citation. -/
def formatCitation (search1 : String → Option GDict)
    (parseRef : String → Option GItem) (i : Nat) (ref : Reference) :
    AgenticCitation :=
  match ref.raises with
  | some e =>
    { id := toString (i + 1)
      title := "Document " ++ toString (i + 1)
      content := "Error extracting citation details"
      reference_type := "Unknown"
      error := some e }
  | none =>
    let dk := if ref.doc_key ≠ "" then ref.doc_key else ref.doc_key_alt
    let sd : Option SourceData :=
      match ref.source_data with
      | some sdv => if sourceDataTruthy sdv then some sdv else none
      | none => none
    let f : CitFields :=
      match sd with
      | some sdv => fieldsFromSourceData parseRef sdv
      | none => if dk ≠ "" then fieldsFromLookup search1 dk else {}
    let title2 :=
      match ref.attr_title with
      | some v => if v ≠ "" ∧ f.title = "" then v else f.title
      | none => f.title
    let content2 :=
      match ref.attr_content with
      | some v => if v ≠ "" ∧ f.content = "" then v else f.content
      | none => f.content
    let chunk2 :=
      match ref.attr_chunk_id with
      | some v => if v ≠ "" ∧ f.chunk_id = "" then v else f.chunk_id
      | none => f.chunk_id
    let score :=
      match ref.attr_score with
      | some v => if v ≠ 0 then some v else none
      | none => none
    let reranker :=
      match ref.attr_reranker_score with
      | some v => if v ≠ 0 then some v else none
      | none => none
    let url :=
      match ref.attr_url with
      | some v => if v ≠ "" then some v else none
      | none => none
    let title3 := titleFallback i dk title2
    let content3 := contentFallback content2
    { id := toString (i + 1)
      doc_key := dk
      activity_source := ref.activity_source
      reference_type := ref.className
      source_data := sd
      title := title3
      content := content3
      company := f.company
      document_type := f.document_type
      filing_date := f.filing_date
      form_type := f.form_type
      ticker := f.ticker
      source := f.source
      page_number := f.page_number
      section_type := f.section_type
      chunk_id := chunk2
      document_url := f.document_url
      score := score
      reranker_score := reranker
      url := url
      error := none }

/-- `_format_citations_from_references` (agentic_vector_rag_service.py
lines 623-740): exactly one citation per reference, in order, with
ordinal ids `str(i+1)`. -/
def _format_citations_from_references (search1 : String → Option GDict)
    (parseRef : String → Option GItem) (refs : List Reference) :
    List AgenticCitation :=
  refs.enum.map (fun ir => formatCitation search1 parseRef ir.1 ir.2)

/-- The direct `usage` property of a planning response.  The source
checks `hasattr(usage, "prompt_tokens")` before reading the three
counters; `some` models a usage object carrying them. -/
structure AgenticUsage where
  prompt_tokens : Nat := 0
  completion_tokens : Nat := 0
  total_tokens : Nat := 0
deriving DecidableEq

/-- One activity step of a planning response, with the attributes read
by the token extractor. -/
structure AgenticActivity where
  input_tokens : Option Nat := none
  output_tokens : Option Nat := none
  className : String := "Unknown"
deriving DecidableEq

/-- The opaque planning response, shallowly embedded with the properties
the post-processing reads.  `rawContent` is
`response.response[0].content[0].text`, collapsed to `""` when any link
of that chain is absent or empty. -/
structure AgenticResponse where
  rawContent : String := ""
  answer_attr : Option String := none
  content_attr : Option String := none
  text_attr : Option String := none
  references : List Reference := []
  usage : Option AgenticUsage := none
  activity : List AgenticActivity := []
deriving DecidableEq

/-- The token-usage breakdown built by
`_extract_token_usage_from_response`. -/
structure TokenUsageBreakdown where
  prompt_tokens : Nat := 0
  completion_tokens : Nat := 0
  total_tokens : Nat := 0
  query_planning_tokens : Nat := 0
  semantic_ranking_tokens : Nat := 0
deriving DecidableEq

/-- One activity step of the token extractor
(agentic_vector_rag_service.py lines 1124-1140): input/output tokens are
added to the prompt/completion counters (and the planning counter), and
semantic-ranker steps are tracked separately; the running total is not
touched here. -/
def activityStep (acc : TokenUsageBreakdown) (a : AgenticActivity) :
    TokenUsageBreakdown :=
  let acc1 :=
    match a.input_tokens with
    | some it =>
      { acc with prompt_tokens := acc.prompt_tokens + it
                 query_planning_tokens := acc.query_planning_tokens + it }
    | none => acc
  let acc2 :=
    match a.output_tokens with
    | some ot =>
      { acc1 with completion_tokens := acc1.completion_tokens + ot
                  query_planning_tokens := acc1.query_planning_tokens + ot }
    | none => acc1
  if pyContains ("SemanticRanker") a.className then
    match a.input_tokens with
    | some it =>
      { acc2 with semantic_ranking_tokens := acc2.semantic_ranking_tokens + it }
    | none => acc2
  else acc2

/-- `_extract_token_usage_from_response` (agentic_vector_rag_service.py
lines 1094-1149): seed from the direct `usage` property when present,
add per-activity tokens, and recompute the total as prompt + completion
only when the running total is still zero. -/
def _extract_token_usage_from_response (resp : AgenticResponse) :
    TokenUsageBreakdown :=
  let base : TokenUsageBreakdown :=
    match resp.usage with
    | some u =>
      { prompt_tokens := u.prompt_tokens
        completion_tokens := u.completion_tokens
        total_tokens := u.total_tokens }
    | none => {}
  let afterActivity := resp.activity.foldl activityStep base
  if afterActivity.total_tokens = 0 then
    { afterActivity with
        total_tokens := afterActivity.prompt_tokens + afterActivity.completion_tokens }
  else afterActivity

/-- Grounding items recovered from one reference
(agentic_vector_rag_service.py lines 903-917): inline dicts are used
directly, JSON strings are parsed, a parse failure wraps the string as
`{"content": s}`, and only truthy results are appended. -/
def refGrounding (parseRef : String → Option GItem) (ref : Reference) :
    List GItem :=
  match ref.source_data with
  | none => []
  | some sd =>
    if sourceDataTruthy sd = false then []
    else
      match sd with
      | .dict d => if d.truthy then [GItem.obj d] else []
      | .str s =>
        match parseRef s with
        | some it => if gitemTruthy it then [it] else []
        | none => [GItem.obj { content := s }]

/-- Grounding extraction over the first 5 references. -/
def groundingFromReferences (parseRef : String → Option GItem)
    (refs : List Reference) : List GItem :=
  (refs.take 5).flatMap (refGrounding parseRef)

/-- The per-item source line of the synthesis prompt
(agentic_vector_rag_service.py lines 1007-1017). -/
def sourceInfo (i : Nat) (d : GDict) : String :=
  "Source: " ++ d.title.getD ("Document " ++ toString (i + 1)) ++
    (if d.company ≠ "" then " (" ++ d.company ++ ")" else "") ++
    (if d.document_type ≠ "" then " - " ++ d.document_type else "")

/-- The prompt lines contributed by one grounding item
(agentic_vector_rag_service.py lines 1005-1027); non-dict items
contribute nothing. -/
def promptItemLines (i : Nat) : GItem → List String
  | .obj d =>
    ["[" ++ toString (i + 1) ++ "] " ++ sourceInfo i d,
     String.mk (List.replicate 40 '-')] ++
      (if d.content ≠ "" then
        [pyTake 800 d.content ++ (if 800 < d.content.length then "..." else "")]
      else []) ++
      [""]
  | .nonObj _ => []

/-- `_build_synthesis_prompt` (agentic_vector_rag_service.py lines
984-1041): the dedicated synthesis prompt built from at most 5 grounding
items. -/
def _build_synthesis_prompt (gd : List GItem) : String :=
  joinLines
    (["Please analyze the following financial document excerpts and provide a comprehensive, analytical response.",
      "Structure your analysis with clear sections and cite specific information from the documents.",
      "",
      "DOCUMENT EXCERPTS:",
      String.mk (List.replicate 50 '=')] ++
      (((gd.take 5).enum).flatMap (fun iit => promptItemLines iit.1 iit.2)) ++
      [String.mk (List.replicate 50 '='),
       "ANALYSIS INSTRUCTIONS:",
       "1. Provide a comprehensive analysis of the key financial information",
       "2. Identify trends, patterns, and significant metrics",
       "3. Compare data across companies/time periods where applicable",
       "4. Structure your response with clear headings and sections",
       "5. Cite specific document sources for all claims",
       "6. Focus on actionable insights and professional analysis",
       "",
       "Please provide your analysis now:"])

/-- The Key Findings block of the structured fallback
(agentic_vector_rag_service.py lines 1074-1085): only the first 3 items,
and only those with more than 100 characters of content. -/
def keyFindingsLines (gd : List GItem) : List String :=
  ((gd.take 3).enum).flatMap fun iit =>
    match iit.2 with
    | .obj d =>
      if d.content ≠ "" ∧ 100 < d.content.length then
        ["**" ++ d.title.getD ("Document " ++ toString (iit.1 + 1)) ++ ":**",
         pyTake 400 d.content ++ (if 400 < d.content.length then "..." else ""),
         ""]
      else []
    | .nonObj _ => []

/-- The companies mentioned across the grounding items
(agentic_vector_rag_service.py lines 1059-1064). -/
def gdCompanies (gd : List GItem) : List String :=
  gd.flatMap fun it =>
    match it with
    | .obj d => if d.company ≠ "" then [d.company] else []
    | .nonObj _ => []

/-- The document types mentioned across the grounding items. -/
def gdDocTypes (gd : List GItem) : List String :=
  gd.flatMap fun it =>
    match it with
    | .obj d => if d.document_type ≠ "" then [d.document_type] else []
    | .nonObj _ => []

/-- `_fallback_structured_response` (agentic_vector_rag_service.py lines
1043-1092): the deterministic structured summary used when the secondary
synthesis call fails; it aggregates companies and document types over
all items and lists findings from the first 3 items. -/
def _fallback_structured_response (gd : List GItem) : String :=
  let companies := dedupFirst (gdCompanies gd)
  let document_types := dedupFirst (gdDocTypes gd)
  let company_list :=
    if companies ≠ [] then
      joinComma (companies.insertionSort (fun a b => a ≤ b))
    else "the analyzed companies"
  let doc_types :=
    if document_types ≠ [] then
      joinComma (document_types.insertionSort (fun a b => a ≤ b))
    else "financial documents"
  joinLines
    (["# Financial Analysis Summary",
      "Based on analysis of " ++ doc_types ++ " for " ++ company_list ++ ":",
      ""] ++
      ["## Key Findings"] ++
      keyFindingsLines gd ++
      ["## Summary",
       "This analysis covers " ++ toString gd.length ++ " relevant document sections ",
       if companies ≠ [] ∧ document_types ≠ [] then
         "from " ++ toString companies.length ++ " companies across " ++
           toString document_types.length ++ " document types."
       else "from the financial document repository."])

/-- `_generate_llm_synthesized_answer` (agentic variant,
agentic_vector_rag_service.py lines 930-982): one secondary
completion-gateway call over the synthesis prompt; any failure falls
back to the deterministic structured summary. -/
def _generate_llm_synthesized_answer (complete : String → Option String)
    (gd : List GItem) : String :=
  match complete (_build_synthesis_prompt gd) with
  | some s => s
  | none => _fallback_structured_response gd

/-- The grounding set used for re-synthesis
(agentic_vector_rag_service.py lines 893-917): the parsed raw payload
when it yields items, otherwise items recovered from the references. -/
def groundingOf (parseTop : String → Option (List GItem))
    (parseRef : String → Option GItem) (raw : String)
    (resp : AgenticResponse) : List GItem :=
  let gd0 : List GItem := if raw ≠ "" then (parseTop raw).getD [] else []
  if gd0.isEmpty ∧ ¬ resp.references.isEmpty then
    groundingFromReferences parseRef resp.references
  else gd0

/-- `_synthesize_answer_from_grounding_data`
(agentic_vector_rag_service.py lines 875-928): parse the raw payload
(`parseTop` is `json.loads` followed by list wrapping), fall back to the
references when parsing yields nothing, then re-synthesize; an empty
grounding set yields a fixed prose message. -/
def _synthesize_answer_from_grounding_data
    (parseTop : String → Option (List GItem))
    (parseRef : String → Option GItem) (complete : String → Option String)
    (raw : String) (resp : AgenticResponse) : String :=
  let gd := groundingOf parseTop parseRef raw resp
  if ¬ gd.isEmpty then _generate_llm_synthesized_answer complete gd
  else "I found relevant financial documents but couldn\u0027t generate a comprehensive analysis. The available data includes financial metrics and reports, but may require more specific queries to provide detailed insights."

/-- The attribute-fallback scan of `_extract_answer_from_response`
(agentic_vector_rag_service.py lines 861-865): the first string
attribute among `answer`, `content`, `text` longer than 50 characters. -/
def firstLongAttr : List (Option String) → Option String
  | [] => none
  | some v :: rest => if 50 < v.length then some v else firstLongAttr rest
  | none :: rest => firstLongAttr rest

/-- `_extract_answer_from_response` (agentic_vector_rag_service.py lines
826-873): structural sniffing of the payload — only the two prefixes
`[{` and `{"` trigger re-synthesis; any other payload longer than 50
characters is returned as-is. -/
def _extract_answer_from_response (parseTop : String → Option (List GItem))
    (parseRef : String → Option GItem) (complete : String → Option String)
    (resp : AgenticResponse) : String :=
  let raw := resp.rawContent
  if pyStartsWith ("[\x7b") raw || pyStartsWith ("\x7b\"") raw then
    _synthesize_answer_from_grounding_data parseTop parseRef complete raw resp
  else if raw ≠ "" ∧ 50 < raw.length then raw
  else
    match firstLongAttr [resp.answer_attr, resp.content_attr, resp.text_attr] with
    | some v => v
    | none => _synthesize_answer_from_grounding_data parseTop parseRef complete ("") resp

/-- The result dict assembled by `_perform_agentic_retrieval`
(agentic_vector_rag_service.py lines 516-532), with the request-scoped
fields `process_question` adds afterwards. -/
structure AgenticResult where
  answer : String
  citations : List AgenticCitation
  query_rewrites : List String
  token_usage : TokenUsageBreakdown
  success : Bool
  retrieval_method : String
  processing_time_ms : Nat := 0
  session_id : String := ""
  rag_mode : String := ""
deriving DecidableEq

/-- `AgenticVectorRAGService.process_question`
(agentic_vector_rag_service.py lines 242-305): on success the retrieval
result is returned with timing/session fields added; any failure of
initialization or of the planning call is re-raised as
`Exception("Agentic retrieval failed: ...")` — no fallback result is
constructed. -/
def process_question (sessionId ragMode : String) (timeMs : Nat)
    (initOutcome : Except String Unit)
    (retrieval : Except String AgenticResult) :
    Except String AgenticResult :=
  match initOutcome with
  | .error e => .error ("Agentic retrieval failed: " ++ e)
  | .ok _ =>
    match retrieval with
    | .ok r =>
      .ok { r with processing_time_ms := timeMs
                   session_id := sessionId
                   rag_mode := ragMode }
    | .error e => .error ("Agentic retrieval failed: " ++ e)

end AgenticVectorRAGService

/-! ## Concrete inputs used by counterexamples and witnesses -/

/-- A hit whose scores pass the thresholds but whose content is empty and
which carries no captions: it survives filtering yet produces no
citation. -/
def emptyContentHit : RetrieverAgent.SearchResult :=
  { id := "e1", search_score := 1 }

/-- A hit with no captions whose content is 400 characters long, so the
citation excerpt must be truncated. -/
def longContentHit : RetrieverAgent.SearchResult :=
  { id := "l1", search_score := 1,
    content := String.mk (List.replicate 400 'a') }

/-! ## Theorems -/

namespace RetrieverAgent

theorem processResults_perm (query : String) (st rt : ℚ)
    (results : List SearchResult) :
    (processResults query st rt results).Perm
      ((results.filter (passesThresholds st rt)).map (buildDoc query)) := by
  have h1 := List.perm_insertionSort docSortRel
    ((results.filter (passesThresholds st rt)).map (buildDoc query)).enum
  have h2 := h1.map Prod.snd
  rwa [List.enum_map_snd] at h2

theorem rankedPairs_pairwise (query : String) (st rt : ℚ)
    (results : List SearchResult) :
    List.Pairwise
      (fun a b : ℕ × Doc =>
        rankKeyLt (sortKey b.2) (sortKey a.2) ∨
          (sortKey a.2 = sortKey b.2 ∧ a.1 < b.1))
      (rankedPairs query st rt results) := by
  set l := (results.filter (passesThresholds st rt)).map (buildDoc query) with hl
  have hsorted : List.Pairwise docSortRel (rankedPairs query st rt results) :=
    List.sorted_insertionSort docSortRel l.enum
  have hperm : (rankedPairs query st rt results).Perm l.enum :=
    List.perm_insertionSort docSortRel l.enum
  have hnody : List.Pairwise (fun a b : ℕ × Doc => a.1 ≠ b.1) l.enum := by
    have hnod : (l.enum.map Prod.fst).Nodup := by
      rw [List.enum_map_fst]; exact List.nodup_range l.length
    exact List.pairwise_map.mp hnod
  have hne : List.Pairwise (fun a b : ℕ × Doc => a.1 ≠ b.1)
      (rankedPairs query st rt results) :=
    ((List.Perm.pairwise_iff (fun h => h.symm) hperm).mpr) hnody
  have hand := hsorted.and hne
  exact hand.imp (fun {a b} h => by
    rcases h with ⟨h1 | ⟨h1, h1'⟩, h2⟩
    · exact Or.inl h1
    · exact Or.inr ⟨h1, lt_of_le_of_ne h1' h2⟩)

end RetrieverAgent

/-- C1: the retriever's result processing drops every hit whose lexical
score is below the score threshold and every hit whose rerank score, when
present, is below the rerank threshold; the surviving hits are returned
sorted descending by the pair (rerank score if present else 0, lexical
score) with ties kept in original retrieval order; and on the concrete
seven-hit list with thresholds (1, 2), exactly the three passing hits come
back, in descending key order. -/
theorem retriever_filter_and_rank (query : String) (st rt : ℚ)
    (hits : List RetrieverAgent.SearchResult) :
    (RetrieverAgent.processResults query st rt hits).Perm
        ((hits.filter (RetrieverAgent.passesThresholds st rt)).map
          (RetrieverAgent.buildDoc query))
    ∧ (RetrieverAgent.processResults query st rt hits).all
        (fun d =>
          !(decide (d.search_score < st)) &&
            (match d.reranker_score with
             | none => true
             | some x => !(decide (x < rt))))
    ∧ List.Pairwise
        (fun a b : ℕ × RetrieverAgent.Doc =>
          rankKeyLt (RetrieverAgent.sortKey b.2) (RetrieverAgent.sortKey a.2) ∨
            (RetrieverAgent.sortKey a.2 = RetrieverAgent.sortKey b.2 ∧ a.1 < b.1))
        (RetrieverAgent.rankedPairs query st rt hits)
    ∧ RetrieverAgent.processResults ("risk factors") 1 2 sevenHits =
        [RetrieverAgent.buildDoc ("risk factors") hitF,
         RetrieverAgent.buildDoc ("risk factors") hitA,
         RetrieverAgent.buildDoc ("risk factors") hitD] := by
  refine ⟨RetrieverAgent.processResults_perm query st rt hits, ?_,
    RetrieverAgent.rankedPairs_pairwise query st rt hits, by decide⟩
  rw [List.all_eq_true]
  intro d hd
  have hmem := (RetrieverAgent.processResults_perm query st rt hits).mem_iff.mp hd
  rcases List.mem_map.mp hmem with ⟨r, hr, rfl⟩
  exact (List.mem_filter.mp hr).2

/-- C9: the score-threshold filter is monotone: raising the score
threshold never increases the number of surviving documents. -/
theorem retriever_filter_monotone (query : String) (t1 t2 rt : ℚ)
    (hits : List RetrieverAgent.SearchResult) (h : t1 ≤ t2) :
    (RetrieverAgent.processResults query t2 rt hits).length ≤
      (RetrieverAgent.processResults query t1 rt hits).length := by
  rw [(RetrieverAgent.processResults_perm query t2 rt hits).length_eq,
    (RetrieverAgent.processResults_perm query t1 rt hits).length_eq,
    List.length_map, List.length_map, ← List.countP_eq_length_filter,
    ← List.countP_eq_length_filter]
  apply List.countP_mono_left
  intro r _ hp
  unfold RetrieverAgent.passesThresholds at hp ⊢
  simp only [Bool.and_eq_true, Bool.not_eq_true', decide_eq_false_iff_not] at hp ⊢
  exact ⟨fun hlt => hp.1 (hlt.trans_le h), hp.2⟩

/-- Witness for C9 at a concrete pair of thresholds and a concrete hit
list. -/
theorem retriever_filter_monotone_w :
    ((1 : ℚ) ≤ 2) ∧
      (RetrieverAgent.processResults ("q") 2 0 sevenHits).length ≤
        (RetrieverAgent.processResults ("q") 1 0 sevenHits).length :=
  ⟨by decide, retriever_filter_monotone ("q") 1 2 0 sevenHits (by decide)⟩

theorem denseIds_succ (k n : Nat) :
    denseIds k (n + 1) = toString k :: denseIds (k + 1) n := by
  simp only [denseIds, List.range_succ_eq_map, List.map_cons, List.map_map,
    Nat.add_zero]
  refine congrArg (List.cons (toString k)) ?_
  apply List.map_congr_left
  intro i _
  simp only [Function.comp_apply]
  congr 1
  omega

theorem pyTake_length_le (n : Nat) (s : String) : (pyTake n s).length ≤ n := by
  have h : (pyTake n s).length = (s.data.take n).length := rfl
  rw [h, List.length_take]
  exact min_le_left _ _

theorem fastExcerpt_length_le (d : RetrieverAgent.Doc) :
    (ChatApi.fastExcerpt d).length ≤ 300 := by
  cases hd : d.highlights with
  | nil => simp only [ChatApi.fastExcerpt, hd]; exact pyTake_length_le 300 _
  | cons h t => simp only [ChatApi.fastExcerpt, hd]; exact pyTake_length_le 300 _

theorem mcpPreview_length_le (s : String) :
    (MCPRAGService.mcpPreview s).length ≤ 303 := by
  unfold MCPRAGService.mcpPreview
  split
  · rw [String.length_append]
    have h1 := pyTake_length_le 300 s
    have h2 : ("...").length = 3 := rfl
    omega
  · rename_i h
    omega

theorem fastRagCitationsAux_ids (docs : List RetrieverAgent.Doc) (k : Nat) :
    (ChatApi.fastRagCitationsAux docs k).map (fun c => c.id) =
      denseIds k (docs.countP (fun d => decide (ChatApi.fastExcerpt d ≠ ""))) := by
  induction docs generalizing k with
  | nil => rfl
  | cons d ds ih =>
    simp only [ChatApi.fastRagCitationsAux, List.countP_cons]
    by_cases hx : ChatApi.fastExcerpt d ≠ ""
    · rw [if_pos hx, List.map_cons, ih]
      have hd : (decide (ChatApi.fastExcerpt d ≠ "")) = true := by simpa using hx
      rw [hd, if_pos rfl]
      exact (denseIds_succ k _).symm
    · rw [if_neg hx, ih]
      have hd : (decide (ChatApi.fastExcerpt d ≠ "")) = false := by simpa using hx
      rw [hd]
      simp

theorem fastRagCitationsAux_contents (docs : List RetrieverAgent.Doc) (k : Nat) :
    (ChatApi.fastRagCitationsAux docs k).map (fun c => c.content) =
      (docs.filter (fun d => decide (ChatApi.fastExcerpt d ≠ ""))).map
        ChatApi.fastExcerpt := by
  induction docs generalizing k with
  | nil => rfl
  | cons d ds ih =>
    simp only [ChatApi.fastRagCitationsAux, List.filter_cons]
    by_cases hx : ChatApi.fastExcerpt d ≠ ""
    · have hd : (decide (ChatApi.fastExcerpt d ≠ "")) = true := by simpa using hx
      rw [if_pos hx, hd, List.map_cons, ih]
      simp [ChatApi.mkFastCitation]
    · have hd : (decide (ChatApi.fastExcerpt d ≠ "")) = false := by simpa using hx
      rw [if_neg hx, hd, ih]
      simp

theorem mcpCitationsAux_ids (search_type : String)
    (docs : List MCPRAGService.McpDoc) (k : Nat) :
    (MCPRAGService.citationsAux search_type docs k).map (fun c => c.id) =
      denseIds k (docs.countP (fun d => decide (d.content ≠ ""))) := by
  induction docs generalizing k with
  | nil => rfl
  | cons d ds ih =>
    simp only [MCPRAGService.citationsAux, List.countP_cons]
    by_cases hx : d.content ≠ ""
    · rw [if_pos hx, List.map_cons, ih]
      have hd : (decide (d.content ≠ "")) = true := by simpa using hx
      rw [hd, if_pos rfl]
      exact (denseIds_succ k _).symm
    · rw [if_neg hx, ih]
      have hd : (decide (d.content ≠ "")) = false := by simpa using hx
      rw [hd]
      simp

theorem mcpCitationsAux_contents (search_type : String)
    (docs : List MCPRAGService.McpDoc) (k : Nat) :
    (MCPRAGService.citationsAux search_type docs k).map (fun c => c.content) =
      (docs.filter (fun d => decide (d.content ≠ ""))).map
        (fun d => MCPRAGService.mcpPreview d.content) := by
  induction docs generalizing k with
  | nil => rfl
  | cons d ds ih =>
    simp only [MCPRAGService.citationsAux, List.filter_cons]
    by_cases hx : d.content ≠ ""
    · have hd : (decide (d.content ≠ "")) = true := by simpa using hx
      rw [if_pos hx, hd, List.map_cons, ih]
      simp
    · have hd : (decide (d.content ≠ "")) = false := by simpa using hx
      rw [if_neg hx, hd, ih]
      simp

/-- C2 counterexample: a hit that passes both score thresholds but has
empty content and no highlights survives filtering (the processed list
holds exactly this document) yet contributes no citation, so the number
of citation ordinals is 0 while 1 hit survived filtering. -/
theorem citation_ordinals_cex :
    RetrieverAgent.processResults ("q") 1 1 [emptyContentHit] =
        [RetrieverAgent.buildDoc ("q") emptyContentHit]
    ∧ (ChatApi.fastRagCitations
        (RetrieverAgent.processResults ("q") 1 1 [emptyContentHit])).length = 0 := by
  decide

/-- C2 amended: citation ordinal ids form the dense sequence 1..N where N
is the number of filtered hits with a non-empty excerpt (first highlight
or content for the fast path, content for the MCP path), not the number
of all hits that survived score filtering. -/
theorem citation_ordinals_dense (docs : List RetrieverAgent.Doc)
    (search_type : String) (mdocs : List MCPRAGService.McpDoc) :
    (ChatApi.fastRagCitations docs).map (fun c => c.id) =
        denseIds 1 (docs.countP (fun d => decide (ChatApi.fastExcerpt d ≠ "")))
    ∧ (MCPRAGService.mcpCitations search_type mdocs).map (fun c => c.id) =
        denseIds 1 (mdocs.countP (fun d => decide (d.content ≠ ""))) :=
  ⟨fastRagCitationsAux_ids docs 1, mcpCitationsAux_ids search_type mdocs 1⟩

/-- C8 counterexample: for a document with no highlights and 400
characters of content, the fast-path citation excerpt is the bare
300-character truncation with no ellipsis marker appended. -/
theorem citation_excerpt_cex :
    (ChatApi.fastRagCitations
        [RetrieverAgent.buildDoc ("q") longContentHit]).map (fun c => c.content) =
      [String.mk (List.replicate 300 'a')]
    ∧ String.mk (List.replicate 300 'a') ≠
        pyTake 300 (String.mk (List.replicate 400 'a')) ++ "..." := by
  decide

/-- C8 amended: the fast-path excerpt is the first highlight truncated
to 300 characters, or the content truncated to 300 characters when no
highlight exists, with no ellipsis marker; the MCP-path excerpt is the
content, truncated to 300 characters with "..." appended only when the
content exceeds 300 characters; hence every excerpt is at most 300
characters on the fast path and at most 303 on the MCP path. -/
theorem citation_excerpt_rules (docs : List RetrieverAgent.Doc)
    (search_type : String) (mdocs : List MCPRAGService.McpDoc) :
    (ChatApi.fastRagCitations docs).map (fun c => c.content) =
        (docs.filter (fun d => decide (ChatApi.fastExcerpt d ≠ ""))).map
          ChatApi.fastExcerpt
    ∧ (ChatApi.fastRagCitations docs).all
        (fun c => decide (c.content.length ≤ 300))
    ∧ (MCPRAGService.mcpCitations search_type mdocs).map (fun c => c.content) =
        (mdocs.filter (fun d => decide (d.content ≠ ""))).map
          (fun d => MCPRAGService.mcpPreview d.content)
    ∧ (MCPRAGService.mcpCitations search_type mdocs).all
        (fun c => decide (c.content.length ≤ 303)) := by
  refine ⟨fastRagCitationsAux_contents docs 1, ?_,
    mcpCitationsAux_contents search_type mdocs 1, ?_⟩
  · rw [List.all_eq_true]
    intro c hcmem
    have hmm : c.content ∈ (ChatApi.fastRagCitations docs).map (fun c => c.content) :=
      List.mem_map_of_mem _ hcmem
    rw [ChatApi.fastRagCitations, fastRagCitationsAux_contents] at hmm
    rcases List.mem_map.mp hmm with ⟨d, _, heq⟩
    exact decide_eq_true (heq ▸ fastExcerpt_length_le d)
  · rw [List.all_eq_true]
    intro c hcmem
    have hmm : c.content ∈
        (MCPRAGService.mcpCitations search_type mdocs).map (fun c => c.content) :=
      List.mem_map_of_mem _ hcmem
    rw [MCPRAGService.mcpCitations, mcpCitationsAux_contents] at hmm
    rcases List.mem_map.mp hmm with ⟨d, _, heq⟩
    exact decide_eq_true (heq ▸ mcpPreview_length_le d.content)

/-- C6 (code bug): `process_fast_rag` always raises `NameError` on the
undefined module-global `conversation_context` and therefore returns the
error result with `success = false` for every input, so the intended
empty-hit-list branch (which does return `success = true` with a "no
relevant documents" message and no citations, deterministically) is
unreachable; moreover a search-gateway failure makes the retriever
return 6 mock documents, never an empty hit list. -/
theorem fast_rag_empty_result_bug (prompt q err : String)
    (md5hex : String → String)
    (searchOutcome : Except String (List RetrieverAgent.SearchResult))
    (complete complete2 : String → String → Option LlmUsage) (t : Nat) :
    (ChatApi.process_fast_rag prompt md5hex searchOutcome complete t).success = false
    ∧ (ChatApi.process_fast_rag prompt md5hex searchOutcome complete t).answer =
        "Error in Fast RAG processing: name \u0027conversation_context\u0027 is not defined"
    ∧ ChatApi.process_fast_rag_body prompt prompt md5hex (.ok []) complete t =
        { answer := "No relevant documents found in the knowledge base for your query. Please try rephrasing your question or use more specific terms."
          citations := []
          query_rewrites := [prompt]
          token_usage :=
            { prompt_tokens := some 0, completion_tokens := some 0, total_tokens := 0 }
          processing_time_ms := t
          retrieval_method := "hybrid_vector_search"
          documents_retrieved := 0
          success := true }
    ∧ ChatApi.process_fast_rag_body prompt prompt md5hex (.ok []) complete t =
        ChatApi.process_fast_rag_body prompt prompt md5hex (.ok []) complete2 t
    ∧ (RetrieverAgent.invoke q md5hex RetrieverAgent.score_threshold
        RetrieverAgent.reranker_threshold (.error err)).length = 6 := by
  refine ⟨rfl, rfl, rfl, rfl, ?_⟩
  show (RetrieverAgent._generate_mock_documents md5hex q).length = 6
  simp only [RetrieverAgent._generate_mock_documents]
  rw [List.length_map,
    (List.perm_insertionSort RetrieverAgent.mockSortRel _).length_eq,
    List.enum_length]
  rfl

/-- C7 (code bug): when embedding generation fails (`queryVector = none`)
no vector query is attached to the search request and a successful
search still yields the normally processed documents, but the fast-RAG
result carries `success = false` for every input because of the
`conversation_context` NameError, contradicting the claimed
`success = true`. -/
theorem embedding_failure_lexical_only (q : String)
    (fs : List (String × RetrieverAgent.FilterValue)) (k : Nat)
    (md5hex : String → String) (st rt : ℚ)
    (results : List RetrieverAgent.SearchResult) (prompt : String)
    (so : Except String (List RetrieverAgent.SearchResult))
    (complete : String → String → Option LlmUsage) (t : Nat) :
    (RetrieverAgent.buildSearchParams q none fs k).vector_queries = []
    ∧ RetrieverAgent.invoke q md5hex st rt (.ok results) =
        RetrieverAgent.processResults q st rt results
    ∧ (ChatApi.process_fast_rag prompt md5hex so complete t).success = false :=
  ⟨rfl, rfl, rfl⟩

/-- C4 counterexample: a planning failure makes `process_question`
re-raise an exception; no result object is produced at all, so no
`success = false` result with empty citations is returned. -/
theorem agentic_planning_error_cex :
    AgenticVectorRAGService.process_question ("s1") ("agentic-rag") 0 (.ok ())
        (.error "PlanningError") =
      .error "Agentic retrieval failed: PlanningError"
    ∧ (AgenticVectorRAGService.process_question ("s1") ("agentic-rag") 0 (.ok ())
        (.error "PlanningError")).isOk = false :=
  ⟨rfl, rfl⟩

/-- C4 amended: a failure of the planning call (or of initialization) is
surfaced to the caller as an explicit exception prefixed
"Agentic retrieval failed: "; the strategy does not fall back to hybrid
search and returns no result object. -/
theorem agentic_planning_error_surfaced (sessionId ragMode e : String) (t : Nat)
    (r : Except String AgenticVectorRAGService.AgenticResult) :
    AgenticVectorRAGService.process_question sessionId ragMode t (.ok ()) (.error e) =
        .error ("Agentic retrieval failed: " ++ e)
    ∧ AgenticVectorRAGService.process_question sessionId ragMode t (.error e) r =
        .error ("Agentic retrieval failed: " ++ e)
    ∧ (AgenticVectorRAGService.process_question sessionId ragMode t (.ok ())
        (.error e)).isOk = false :=
  ⟨rfl, rfl, rfl⟩

theorem activity_foldl_total (l : List AgenticVectorRAGService.AgenticActivity)
    (b : AgenticVectorRAGService.TokenUsageBreakdown) :
    (l.foldl AgenticVectorRAGService.activityStep b).total_tokens =
      b.total_tokens := by
  induction l generalizing b with
  | nil => rfl
  | cons a l ih =>
    rw [List.foldl_cons, ih]
    simp only [AgenticVectorRAGService.activityStep]
    rcases hin : a.input_tokens with _ | it <;>
      rcases hout : a.output_tokens with _ | ot <;>
      split <;> simp [hin, hout]

/-- C5 counterexample: with a direct usage property (10, 5, 15) and one
activity step adding 7 input and 3 output tokens, the extractor reports
prompt 17 and completion 8 while keeping total 15, and 17 + 8 ≠ 15. -/
theorem token_usage_total_mismatch_cex :
    AgenticVectorRAGService._extract_token_usage_from_response
        { usage := some { prompt_tokens := 10, completion_tokens := 5, total_tokens := 15 }
          activity := [{ input_tokens := some 7, output_tokens := some 3 }] } =
      { prompt_tokens := 17, completion_tokens := 8, total_tokens := 15,
        query_planning_tokens := 10, semantic_ranking_tokens := 0 }
    ∧ 17 + 8 ≠ 15 :=
  ⟨rfl, by decide⟩

/-- C5 amended: `total_tokens = prompt_tokens + completion_tokens` holds
in the agentic extractor whenever the response carries no direct usage
total (or a zero one); it holds unconditionally in the MCP result
(where prompt and completion tokens are always present); and the
completion-gateway fallbacks of the fast and MCP paths report prompt and
completion tokens as 0 rather than omitting them.  When the agentic
response carries a nonzero direct usage total, that total is reported
unchanged even though activity tokens are still added to
prompt/completion, so the sum can exceed the total. -/
theorem token_usage_reconciliation
    (resp : AgenticVectorRAGService.AgenticResponse)
    (h : ∀ u ∈ resp.usage, u.total_tokens = 0) :
    (AgenticVectorRAGService._extract_token_usage_from_response resp).total_tokens =
        (AgenticVectorRAGService._extract_token_usage_from_response resp).prompt_tokens +
          (AgenticVectorRAGService._extract_token_usage_from_response resp).completion_tokens
    ∧ (∀ (q : String) (docs : List MCPRAGService.McpDoc) (hist : List HistMsg)
        (complete : String → String → Option LlmUsage) (stype : String) (t : Nat),
        (MCPRAGService.process_question q (.ok ()) docs hist complete stype t).token_usage.total_tokens =
            (MCPRAGService.process_question q (.ok ()) docs hist complete stype t).token_usage.prompt_tokens.getD 0 +
              (MCPRAGService.process_question q (.ok ()) docs hist complete stype t).token_usage.completion_tokens.getD 0
          ∧ (MCPRAGService.process_question q (.ok ()) docs hist complete stype t).token_usage.prompt_tokens.isSome = true
          ∧ (MCPRAGService.process_question q (.ok ()) docs hist complete stype t).token_usage.completion_tokens.isSome = true)
    ∧ (∀ (q : String) (docs : List RetrieverAgent.Doc) (hist : List HistMsg)
        (complete : String → String → Option LlmUsage),
        complete ChatApi.fastSystemPrompt (ChatApi.fastUserPrompt q docs hist) = none →
          (ChatApi._generate_llm_synthesized_answer q docs hist complete).prompt_tokens = 0
          ∧ (ChatApi._generate_llm_synthesized_answer q docs hist complete).completion_tokens = 0
          ∧ (ChatApi._generate_llm_synthesized_answer q docs hist complete).total_tokens = 0)
    ∧ (∀ docs : List MCPRAGService.McpDoc,
        (MCPRAGService._generate_fallback_answer docs).prompt_tokens = 0
        ∧ (MCPRAGService._generate_fallback_answer docs).completion_tokens = 0
        ∧ (MCPRAGService._generate_fallback_answer docs).total_tokens = 0) := by
  refine ⟨?_, ?_, ?_, ?_⟩
  · rcases hu : resp.usage with _ | u
    · simp only [AgenticVectorRAGService._extract_token_usage_from_response, hu]
      rw [if_pos (activity_foldl_total resp.activity _)]
    · have hu0 : u.total_tokens = 0 := h u (by simp [hu])
      simp only [AgenticVectorRAGService._extract_token_usage_from_response, hu]
      rw [if_pos (by rw [activity_foldl_total]; exact hu0)]
  · intro q docs hist complete stype t
    cases hd : docs.isEmpty <;> simp [MCPRAGService.process_question, hd]
  · intro q docs hist complete hc
    unfold ChatApi._generate_llm_synthesized_answer
    rw [hc]
    exact ⟨rfl, rfl, rfl⟩
  · intro docs
    exact ⟨rfl, rfl, rfl⟩

/-- Witness for C5 at a response with no direct usage property. -/
theorem token_usage_reconciliation_w :
    (∀ u ∈ ({} : AgenticVectorRAGService.AgenticResponse).usage, u.total_tokens = 0)
    ∧ (AgenticVectorRAGService._extract_token_usage_from_response {}).total_tokens =
        (AgenticVectorRAGService._extract_token_usage_from_response {}).prompt_tokens +
          (AgenticVectorRAGService._extract_token_usage_from_response {}).completion_tokens :=
  ⟨by simp, (token_usage_reconciliation {} (by simp)).1⟩

theorem append_ne_empty_left (s t : String) (h : s.data ≠ []) : s ++ t ≠ "" := by
  intro he
  apply h
  have hd := congrArg String.data he
  rw [String.data_append] at hd
  exact (List.append_eq_nil.mp hd).1

theorem formatCitation_id (search1 : String → Option AgenticVectorRAGService.GDict)
    (parseRef : String → Option AgenticVectorRAGService.GItem) (i : Nat)
    (ref : AgenticVectorRAGService.Reference) :
    (AgenticVectorRAGService.formatCitation search1 parseRef i ref).id =
      toString (i + 1) := by
  unfold AgenticVectorRAGService.formatCitation
  cases href : ref.raises <;> rfl

theorem append_data_ne_left {a : String} (b : String) (h : a.data ≠ []) :
    (a ++ b).data ≠ [] := by
  rw [String.data_append]
  intro he
  exact h (List.append_eq_nil.mp he).1

theorem derivedTitle_ne (i : Nat) (dk : String) :
    AgenticVectorRAGService.derivedTitle i dk ≠ "" := by
  unfold AgenticVectorRAGService.derivedTitle
  dsimp only
  split
  · split
    · exact append_ne_empty_left _ _
        (append_data_ne_left _ (append_data_ne_left _ (by decide)))
    · exact append_ne_empty_left _ _ (by decide)
  · exact append_ne_empty_left _ _ (by decide)

theorem titleFallback_ne (i : Nat) (dk t : String) :
    AgenticVectorRAGService.titleFallback i dk t ≠ "" := by
  unfold AgenticVectorRAGService.titleFallback
  split
  · exact derivedTitle_ne i dk
  · rename_i h
    exact h

theorem contentFallback_ne (c : String) :
    AgenticVectorRAGService.contentFallback c ≠ "" := by
  unfold AgenticVectorRAGService.contentFallback
  split
  · decide
  · rename_i h
    exact h

theorem formatCitation_title_ne
    (search1 : String → Option AgenticVectorRAGService.GDict)
    (parseRef : String → Option AgenticVectorRAGService.GItem) (i : Nat)
    (ref : AgenticVectorRAGService.Reference) :
    (AgenticVectorRAGService.formatCitation search1 parseRef i ref).title ≠ "" := by
  unfold AgenticVectorRAGService.formatCitation
  cases href : ref.raises with
  | some e =>
    show "Document " ++ toString (i + 1) ≠ ""
    exact append_ne_empty_left _ _ (by decide)
  | none => apply titleFallback_ne

theorem formatCitation_content_ne
    (search1 : String → Option AgenticVectorRAGService.GDict)
    (parseRef : String → Option AgenticVectorRAGService.GItem) (i : Nat)
    (ref : AgenticVectorRAGService.Reference) :
    (AgenticVectorRAGService.formatCitation search1 parseRef i ref).content ≠ "" := by
  unfold AgenticVectorRAGService.formatCitation
  cases href : ref.raises with
  | some e =>
    show "Error extracting citation details" ≠ ""
    decide
  | none => apply contentFallback_ne

theorem enumFrom_toString_ids (k : Nat)
    (refs : List AgenticVectorRAGService.Reference) :
    (List.enumFrom k refs).map (fun ir => toString (ir.1 + 1)) =
      denseIds (k + 1) refs.length := by
  induction refs generalizing k with
  | nil => rfl
  | cons r rs ih =>
    simp only [List.enumFrom, List.map_cons, List.length_cons]
    rw [ih, denseIds_succ]

/-- C10: the reference-to-citation mapping is a total function producing
exactly one citation per reference, in input order with dense ordinal
ids, and every citation carries a non-empty human-readable title and
non-empty content — for arbitrary references, arbitrary metadata-lookup
outcomes (`search1` may fail on every key), arbitrary JSON-parse
outcomes, and references whose processing raises (`raises` set). -/
theorem agentic_citations_total
    (search1 : String → Option AgenticVectorRAGService.GDict)
    (parseRef : String → Option AgenticVectorRAGService.GItem)
    (refs : List AgenticVectorRAGService.Reference) :
    (AgenticVectorRAGService._format_citations_from_references search1 parseRef refs).length =
        refs.length
    ∧ (AgenticVectorRAGService._format_citations_from_references search1 parseRef refs).map
        (fun c => c.id) = denseIds 1 refs.length
    ∧ (AgenticVectorRAGService._format_citations_from_references search1 parseRef refs).all
        (fun c => decide (c.title ≠ "") && decide (c.content ≠ "")) := by
  refine ⟨?_, ?_, ?_⟩
  · unfold AgenticVectorRAGService._format_citations_from_references
    rw [List.length_map, List.enum_length]
  · unfold AgenticVectorRAGService._format_citations_from_references
    rw [List.map_map]
    have hfun :
        ((fun c : AgenticVectorRAGService.AgenticCitation => c.id) ∘
          (fun ir : ℕ × AgenticVectorRAGService.Reference =>
            AgenticVectorRAGService.formatCitation search1 parseRef ir.1 ir.2)) =
          (fun ir : ℕ × AgenticVectorRAGService.Reference => toString (ir.1 + 1)) := by
      funext ir
      exact formatCitation_id search1 parseRef ir.1 ir.2
    rw [hfun]
    exact enumFrom_toString_ids 0 refs
  · rw [List.all_eq_true]
    intro c hc
    unfold AgenticVectorRAGService._format_citations_from_references at hc
    rcases List.mem_map.mp hc with ⟨ir, _, rfl⟩
    simp only [Bool.and_eq_true, decide_eq_true_eq]
    exact ⟨formatCitation_title_ne search1 parseRef ir.1 ir.2,
      formatCitation_content_ne search1 parseRef ir.1 ir.2⟩

theorem not_bracket_prefix_of_hash {s : String} {l : List Char}
    (hs : s.data = '#' :: l) :
    pyStartsWith ("[\x7b") s = false ∧ pyStartsWith ("\x7b\"") s = false := by
  unfold pyStartsWith
  rw [hs]
  exact ⟨by simp [List.isPrefixOf, show ('[' == '#') = false from by decide],
    by simp [List.isPrefixOf, show ('\x7b' == '#') = false from by decide]⟩

theorem fallback_data_head (gd : List AgenticVectorRAGService.GItem) :
    ∃ l, (AgenticVectorRAGService._fallback_structured_response gd).data = '#' :: l :=
  ⟨_, rfl⟩

/-- C3 counterexample: a payload that is a JSON array of one string
(beginning with the array token `[`) but not with the sniffed prefixes
is returned verbatim by the answer extraction, raw JSON and all. -/
theorem agentic_raw_json_returned_cex :
    pyStartsWith ("[")
        ({ rawContent := "[\"" ++ String.mk (List.replicate 60 'a') ++ "\"]" } :
          AgenticVectorRAGService.AgenticResponse).rawContent = true
    ∧ AgenticVectorRAGService._extract_answer_from_response (fun _ => none)
        (fun _ => none) (fun _ => none)
        { rawContent := "[\"" ++ String.mk (List.replicate 60 'a') ++ "\"]" } =
      "[\"" ++ String.mk (List.replicate 60 'a') ++ "\"]" :=
  ⟨rfl, rfl⟩

/-- C3 amended: only payloads beginning with `[{` or `{"` are treated as
raw JSON grounding data; for those, the adapter re-synthesizes via a
secondary completion call whose prompt uses at most 5 grounding items,
falls back — when that call fails — to the deterministic structured
summary (which aggregates companies/document types and lists findings
from the first 3 items only), and when every secondary call fails the
returned answer never starts with the sniffed raw-JSON prefixes. -/
theorem agentic_answer_disambiguation
    (parseTop : String → Option (List AgenticVectorRAGService.GItem))
    (parseRef : String → Option AgenticVectorRAGService.GItem)
    (complete : String → Option String)
    (resp : AgenticVectorRAGService.AgenticResponse)
    (h : pyStartsWith ("[\x7b") resp.rawContent = true ∨
         pyStartsWith ("\x7b\"") resp.rawContent = true) :
    AgenticVectorRAGService._extract_answer_from_response parseTop parseRef complete resp =
        AgenticVectorRAGService._synthesize_answer_from_grounding_data parseTop
          parseRef complete resp.rawContent resp
    ∧ (∀ gd : List AgenticVectorRAGService.GItem,
        AgenticVectorRAGService._build_synthesis_prompt gd =
          AgenticVectorRAGService._build_synthesis_prompt (gd.take 5))
    ∧ (∀ gd : List AgenticVectorRAGService.GItem,
        AgenticVectorRAGService._generate_llm_synthesized_answer complete gd =
          (complete (AgenticVectorRAGService._build_synthesis_prompt gd)).getD
            (AgenticVectorRAGService._fallback_structured_response gd))
    ∧ (∀ gd : List AgenticVectorRAGService.GItem,
        AgenticVectorRAGService.keyFindingsLines gd =
          AgenticVectorRAGService.keyFindingsLines (gd.take 3))
    ∧ ((∀ p, complete p = none) →
        pyStartsWith ("[\x7b")
            (AgenticVectorRAGService._extract_answer_from_response parseTop
              parseRef complete resp) = false
        ∧ pyStartsWith ("\x7b\"")
            (AgenticVectorRAGService._extract_answer_from_response parseTop
              parseRef complete resp) = false) := by
  have hb : (pyStartsWith ("[\x7b") resp.rawContent ||
      pyStartsWith ("\x7b\"") resp.rawContent) = true := by
    rcases h with h | h <;> simp [h]
  have hextract :
      AgenticVectorRAGService._extract_answer_from_response parseTop parseRef
          complete resp =
        AgenticVectorRAGService._synthesize_answer_from_grounding_data parseTop
          parseRef complete resp.rawContent resp := by
    simp only [AgenticVectorRAGService._extract_answer_from_response, hb]
    rw [if_pos trivial]
  refine ⟨hextract, ?_, ?_, ?_, ?_⟩
  · intro gd
    unfold AgenticVectorRAGService._build_synthesis_prompt
    rw [List.take_take]
    norm_num
  · intro gd
    unfold AgenticVectorRAGService._generate_llm_synthesized_answer
    cases hc : complete (AgenticVectorRAGService._build_synthesis_prompt gd) <;>
      simp [hc]
  · intro gd
    unfold AgenticVectorRAGService.keyFindingsLines
    rw [List.take_take]
    norm_num
  · intro hcn
    rw [hextract]
    unfold AgenticVectorRAGService._synthesize_answer_from_grounding_data
    dsimp only
    split
    · unfold AgenticVectorRAGService._generate_llm_synthesized_answer
      rw [hcn]
      dsimp only
      rcases fallback_data_head
        (AgenticVectorRAGService.groundingOf parseTop parseRef resp.rawContent resp)
        with ⟨l, hl⟩
      exact not_bracket_prefix_of_hash hl
    · constructor <;> decide

/-- Witness for C3 at a concrete sniffed payload and failing oracles. -/
theorem agentic_answer_disambiguation_w :
    (pyStartsWith ("[\x7b")
        ({ rawContent := "[\x7b\x7d]" } :
          AgenticVectorRAGService.AgenticResponse).rawContent = true ∨
      pyStartsWith ("\x7b\"")
        ({ rawContent := "[\x7b\x7d]" } :
          AgenticVectorRAGService.AgenticResponse).rawContent = true)
    ∧ AgenticVectorRAGService._extract_answer_from_response (fun _ => none)
        (fun _ => none) (fun _ => none) { rawContent := "[\x7b\x7d]" } =
      AgenticVectorRAGService._synthesize_answer_from_grounding_data
        (fun _ => none) (fun _ => none) (fun _ => none)
        ({ rawContent := "[\x7b\x7d]" } :
          AgenticVectorRAGService.AgenticResponse).rawContent
        { rawContent := "[\x7b\x7d]" } :=
  ⟨Or.inl rfl,
    (agentic_answer_disambiguation (fun _ => none) (fun _ => none) (fun _ => none)
      { rawContent := "[\x7b\x7d]" } (Or.inl rfl)).1⟩
